import Mathlib

/-!
Verification of kindle_to_md.py: a converter from Bookcision JSON exports of
Kindle highlights to Markdown.

The source is shallowly embedded: Python dictionaries/lists/scalars become the
`Json` inductive, dynamic key access becomes `Json.get` (raising a key error
for a missing key on a dict and a type error when indexing a non-dict), and
Python exceptions become the `PyErr` error type threaded through `Except`.
JSON numbers are modelled as integers (no claim involves numeric values).
Objects produced by the JSON loader have unique keys, so association-list
lookup is first-match.
-/

inductive Json where
  | null : Json
  | bool : Bool → Json
  | str : String → Json
  | num : Int → Json
  | arr : List Json → Json
  | obj : List (String × Json) → Json

/-- Python `x == \x27\x27`: only the empty string compares equal to the empty
string (no other JSON value equals it, booleans and numbers included). -/
def Json.isEmptyStr : Json → Bool
  | .str s => s == ""
  | _ => false

/-- Python `x is None`. -/
def Json.isNull : Json → Bool
  | .null => true
  | _ => false

/-- Python exceptions relevant to the program: KeyError (carrying the missing
key), TypeError (indexing or iterating a value of the wrong type), and the
script's own MisformattedKindleData (carrying its message, possibly empty). -/
inductive PyErr where
  | keyError : String → PyErr
  | typeError : PyErr
  | misformatted : String → PyErr

def lookupField : List (String × Json) → String → Option Json
  | [], _ => none
  | (k, v) :: rest, key => if k == key then some v else lookupField rest key

/-- Python subscript `d[key]`: on a dict, the value or KeyError; on anything
else, TypeError (not subscriptable / indices must be integers). -/
def Json.get : Json → String → Except PyErr Json
  | .obj fields, key =>
    match lookupField fields key with
    | some v => .ok v
    | none => .error (.keyError key)
  | _, _ => .error .typeError

/-- Python truthiness of a JSON value: None, False, 0, empty string, empty
list and empty dict are falsy. -/
def truthy : Json → Bool
  | .null => false
  | .bool b => b
  | .str s => !(s == "")
  | .num n => !(n == 0)
  | .arr xs => !xs.isEmpty
  | .obj fields => !fields.isEmpty

mutual

/-- Python repr of a JSON value (escaping inside string reprs is elided; every
claim only ever formats plain strings). -/
def pyRepr : Json → String
  | .null => "None"
  | .bool true => "True"
  | .bool false => "False"
  | .str s => "\x27" ++ s ++ "\x27"
  | .num n => toString n
  | .arr xs => "[" ++ pyReprList xs ++ "]"
  | .obj fields => "\x7b" ++ pyReprFields fields ++ "\x7d"

def pyReprList : List Json → String
  | [] => ""
  | [x] => pyRepr x
  | x :: y :: rest => pyRepr x ++ ", " ++ pyReprList (y :: rest)

def pyReprFields : List (String × Json) → String
  | [] => ""
  | [(k, v)] => "\x27" ++ k ++ "\x27: " ++ pyRepr v
  | (k, v) :: kv :: rest =>
    "\x27" ++ k ++ "\x27: " ++ pyRepr v ++ ", " ++ pyReprFields (kv :: rest)

end

/-- Python str() of a JSON value, as used by f-string interpolation. -/
def pyStr : Json → String
  | .str s => s
  | j => pyRepr j

/-- Python iteration `for x in j`: lists yield elements, strings yield
one-character strings, dicts yield their keys, scalars raise TypeError. -/
def pyIter : Json → Except PyErr (List Json)
  | .arr xs => .ok xs
  | .str s => .ok (s.toList.map (fun c => Json.str (String.singleton c)))
  | .obj fields => .ok (fields.map (fun kv => Json.str kv.1))
  | _ => .error .typeError

/-- A `try ... except KeyError: raise MisformattedKindleData(msg)` block:
KeyError is converted, every other outcome passes through unchanged. -/
def catchKeyError (msg : String) : Except PyErr α → Except PyErr α
  | .error (.keyError _) => .error (.misformatted msg)
  | r => r

/-- single_entry_to_md from kindle_to_md.py.  The body performs, in order:
the location link accesses, the isNoteOnly access, the text access (Python
evaluates `entry_data[\x27text\x27]` in the first contradiction check when
isNoteOnly is truthy and in the second one otherwise, in both cases before
any raise and before the note accesses), the two contradiction checks raising
a message-less MisformattedKindleData, then the note access and the bullet
construction.  The whole body sits in a try/except KeyError block. -/
def single_entry_to_md (entry_data : Json) : Except PyErr String :=
  catchKeyError "Kindle export missing expeced fields." (
    match entry_data.get "location" with
    | .error e => .error e
    | .ok loc =>
      match loc.get "value" with
      | .error e => .error e
      | .ok v =>
        match loc.get "url" with
        | .error e => .error e
        | .ok u =>
          let kindle_link := "[" ++ pyStr v ++ "](" ++ pyStr u ++ ")"
          match entry_data.get "isNoteOnly" with
          | .error e => .error e
          | .ok ino =>
            match entry_data.get "text" with
            | .error e => .error e
            | .ok t =>
              if truthy ino && !(t.isEmptyStr) then
                .error (.misformatted "")
              else if !(truthy ino) && (t.isEmptyStr) then
                .error (.misformatted "")
              else
                match entry_data.get "note" with
                | .error e => .error e
                | .ok n =>
                  .ok ((if truthy ino && truthy n && !(n.isEmptyStr) then
                          "- Note: " ++ pyStr n ++ " (" ++ kindle_link ++ ")\n"
                        else "")
                    ++ (if !(truthy ino) && !(t.isEmptyStr) then
                          "- " ++ pyStr t ++ " (" ++ kindle_link ++ ")\n"
                          ++ (if truthy n && !(n.isEmptyStr) then
                                "    - Note: " ++ pyStr n ++ "\n"
                              else "")
                        else "")))

/-- The list comprehension
`[ i for i in highlights if i[\x27note\x27] is not None ]`, evaluating the
note access of each element in order. -/
def notesFilter : List Json → Except PyErr (List Json)
  | [] => .ok []
  | h :: rest =>
    match h.get "note" with
    | .error e => .error e
    | .ok n =>
      match notesFilter rest with
      | .error e => .error e
      | .ok keep => .ok (if n.isNull then keep else h :: keep)

/-- `for highlight in hs : markdown_str += single_entry_to_md(highlight)`:
renders entries in order, stopping at the first error. -/
def renderEntries : List Json → Except PyErr String
  | [] => .ok ""
  | h :: rest =>
    match single_entry_to_md h with
    | .error e => .error e
    | .ok md =>
      match renderEntries rest with
      | .error e => .error e
      | .ok s => .ok (md ++ s)

/-- The Highlights with Notes section of kindle_to_md: the comprehension over
kindle_data[\x27highlights\x27] sits in a try/except KeyError converting to
"Kindle export missing expected fields."; the subsequent rendering loop is
outside that block, so its errors pass through unchanged. -/
def notesSectionMd (kindle_data : Json) : Except PyErr String :=
  match catchKeyError "Kindle export missing expected fields." (
      match kindle_data.get "highlights" with
      | .error e => .error e
      | .ok hj =>
        match pyIter hj with
        | .error e => .error e
        | .ok hs => notesFilter hs) with
  | .error e => .error e
  | .ok hwn =>
    match renderEntries hwn with
    | .error e => .error e
    | .ok nm => .ok ("## Highlights with Notes\n\n" ++ nm ++ "\n\n")

/-- kindle_to_md from kindle_to_md.py.  The title/authors accesses sit in a
try/except KeyError converting to "Kindle export missing title or author
fields.".  The final All Highlights loop accesses
kindle_data[\x27highlights\x27] with no surrounding handler, so a missing key
there surfaces as a plain KeyError.  Section headers appended to the local
accumulator before a raise are discarded with it, so only the successful path
contributes to the returned string. -/
def kindle_to_md (kindle_data : Json) (notes_section : Bool := true) :
    Except PyErr String :=
  match catchKeyError "Kindle export missing title or author fields." (
      match kindle_data.get "title" with
      | .error e => .error e
      | .ok t =>
        match kindle_data.get "authors" with
        | .error e => .error e
        | .ok a =>
          .ok ("# " ++ pyStr t ++ "\n\n" ++ "Authors: " ++ pyStr a ++ "\n\n")) with
  | .error e => .error e
  | .ok header =>
    match (if notes_section then notesSectionMd kindle_data
           else .ok "" : Except PyErr String) with
    | .error e => .error e
    | .ok notesPart =>
      match kindle_data.get "highlights" with
      | .error e => .error e
      | .ok hj =>
        match pyIter hj with
        | .error e => .error e
        | .ok hs =>
          match renderEntries hs with
          | .error e => .error e
          | .ok am =>
            .ok (header ++ notesPart ++ "## All Highlights\n\n" ++ am)

/-- A file system: file name to contents. -/
def FS := String → Option String

def emptyFS : FS := fun _ => none

/-- write_output from kindle_to_md.py, as a state transformer on the file
system paired with the text the call prints to standard output.  With no
file name, `print` emits the text plus a newline; with a file name, the file
is opened for writing (created or truncated) and receives exactly the text. -/
def write_output (output_text : String) (filename : Option String) (fs : FS) :
    FS × String :=
  match filename with
  | none => (fs, output_text ++ "\n")
  | some f => (fun g => if g = f then some output_text else fs g, "")

/-- The render-then-write pipeline of main (lines calling kindle_to_md then
write_output): write_output runs only after kindle_to_md has returned, so on
a rendering error the file system is unchanged and no rendered Markdown has
been printed.  Result: final file system, Markdown printed to stdout, and
the error if one was raised. -/
def run_pipeline (kindle_data : Json) (output_filename : Option String)
    (fs : FS) : FS × String × Option PyErr :=
  match kindle_to_md kindle_data true with
  | .error e => (fs, "", some e)
  | .ok md =>
    match write_output md output_filename fs with
    | (fs2, out) => (fs2, out, none)

/-- main catches InvalidCommandLineArguments, MisformattedKindleData and
FileNotFoundError.  Of the errors the transformer can produce, only
MisformattedKindleData is in that tuple: KeyError and TypeError escape. -/
def caught_by_main : PyErr → Bool
  | .misformatted _ => true
  | .keyError _ => false
  | .typeError => false

/-- str(error), the message main passes to show_help: a
MisformattedKindleData carries its constructor argument (possibly empty),
str of KeyError(key) is the repr-quoted key. -/
def errMessage : PyErr → String
  | .misformatted m => m
  | .keyError k => "\x27" ++ k ++ "\x27"
  | .typeError => "type error"

def helpText : String :=
  "Converts JSON Amazon Kindle notes generated by Bookcision to markdown.\n\nBookcision (https://bookcision.readwise.io/) is a bookmarklet that exports\nKindle notes and highlights (https://read.amazon.com/notebook). This script\nconverts notes and highlights exported as JSON to markdown.\n\nSyntax: kindle-to-md <inputfile.json> [<outputfile.md>]\n\nIf outputfile is omitted, will be printed to stdout.\n"

/-- show_help from kindle_to_md.py as the text it prints: the explanatory
message plus a newline (print appends another), when one was supplied,
followed by the static help text (print again appending a newline). -/
def show_help (help_message : Option String) : String :=
  (match help_message with
   | some m => m ++ "\n" ++ "\n"
   | none => "") ++ helpText ++ "\n"

def Json.isObj : Json → Bool
  | .obj _ => true
  | _ => false

/-- An entry that is a dict whose location, when present, is itself a dict:
exactly the shape under which every subscript in single_entry_to_md is a
dict access, so every failure inside it is a KeyError (converted to
MisformattedKindleData) or an explicit MisformattedKindleData raise. -/
def entryWellShaped (h : Json) : Bool :=
  h.isObj &&
    (match h.get "location" with
     | .ok loc => loc.isObj
     | .error _ => true)

/-- The contradictory-record condition of single_entry_to_md: isNoteOnly and
text are present, and isNoteOnly is truthy with text not the empty string,
or isNoteOnly is falsy with text the empty string. -/
def contradictoryEntry (h : Json) : Bool :=
  match h.get "isNoteOnly", h.get "text" with
  | .ok ino, .ok t =>
    (truthy ino && !(t.isEmptyStr)) || (!(truthy ino) && (t.isEmptyStr))
  | _, _ => false

/-- A top-level export document of the documented shape: title, authors, and
a highlights list. -/
def mkDoc (tj aj : Json) (hs : List Json) : Json :=
  Json.obj [("title", tj), ("authors", aj), ("highlights", Json.arr hs)]

/-- A contradictory entry: isNoteOnly is true yet text is non-empty. -/
def exContraEntry : Json :=
  Json.obj [("isNoteOnly", Json.bool true), ("text", Json.str "something"),
    ("note", Json.null),
    ("location", Json.obj [("value", Json.str "1"), ("url", Json.str "u")])]

/-- A document whose only highlight is the contradictory entry. -/
def exContraDoc : Json := mkDoc (Json.str "T") (Json.str "A") [exContraEntry]

/-- An entry with every documented field present: text "Hi", null note,
isNoteOnly false, and a location. -/
def exTextNoteEntry : Json :=
  Json.obj [("text", Json.str "Hi"), ("note", Json.null),
    ("isNoteOnly", Json.bool false),
    ("location", Json.obj [("value", Json.str "12"), ("url", Json.str "http://x")])]

/-- The location record of exTextNoteEntry and exNoNoteEntry. -/
def exLoc12 : Json :=
  Json.obj [("value", Json.str "12"), ("url", Json.str "http://x")]

/-- A non-contradictory entry (isNoteOnly false, text non-empty) with
location fields present but with no note key. -/
def exNoNoteEntry : Json :=
  Json.obj [("text", Json.str "Hi"), ("isNoteOnly", Json.bool false),
    ("location", Json.obj [("value", Json.str "12"), ("url", Json.str "http://x")])]

/-- A note-only entry (isNoteOnly true, empty text, valid location) whose
note key is absent. -/
def exAbsentNoteEntry : Json :=
  Json.obj [("isNoteOnly", Json.bool true), ("text", Json.str ""),
    ("location", Json.obj [("value", Json.str "1"), ("url", Json.str "u")])]

/-- A document whose only highlight is exAbsentNoteEntry. -/
def exAbsentNoteDoc : Json := mkDoc (Json.str "T") (Json.str "A") [exAbsentNoteEntry]

/-- A note-only entry (isNoteOnly true, empty text, valid location) whose
note is present but null. -/
def exEmptyNoteEntry : Json :=
  Json.obj [("isNoteOnly", Json.bool true), ("text", Json.str ""),
    ("note", Json.null),
    ("location", Json.obj [("value", Json.str "1"), ("url", Json.str "u")])]

/-! ### Helper lemmas -/

theorem isObj_obj {h : Json} (hh : h.isObj = true) : ∃ fl, h = Json.obj fl := by
  cases h with
  | obj fl => exact ⟨fl, rfl⟩
  | null => simp [Json.isObj] at hh
  | bool b => simp [Json.isObj] at hh
  | str s => simp [Json.isObj] at hh
  | num n => simp [Json.isObj] at hh
  | arr xs => simp [Json.isObj] at hh

theorem obj_get_cases (fl : List (String × Json)) (k : String) :
    (Json.obj fl).get k = .error (.keyError k) ∨ ∃ v, (Json.obj fl).get k = .ok v := by
  cases h : lookupField fl k with
  | none => left; simp [Json.get, h]
  | some v => right; exact ⟨v, by simp [Json.get, h]⟩

theorem get_ok_obj {d : Json} {k : String} {v : Json} (h : d.get k = .ok v) :
    ∃ fl, d = Json.obj fl := by
  cases d with
  | obj fl => exact ⟨fl, rfl⟩
  | null => simp [Json.get] at h
  | bool b => simp [Json.get] at h
  | str s => simp [Json.get] at h
  | num n => simp [Json.get] at h
  | arr xs => simp [Json.get] at h

theorem catchKeyError_ok {α : Type} (msg : String) (v : α) :
    catchKeyError msg (.ok v) = .ok v := rfl

theorem catchKeyError_key {α : Type} (msg k : String) :
    catchKeyError msg (.error (.keyError k) : Except PyErr α) =
      .error (.misformatted msg) := rfl

theorem catchKeyError_mis {α : Type} (msg m : String) :
    catchKeyError msg (.error (.misformatted m) : Except PyErr α) =
      .error (.misformatted m) := rfl

theorem catchKeyError_type {α : Type} (msg : String) :
    catchKeyError msg (.error .typeError : Except PyErr α) =
      .error .typeError := rfl

theorem entryWellShaped_isObj {h : Json} (hw : entryWellShaped h = true) :
    h.isObj = true := by
  unfold entryWellShaped at hw
  rw [Bool.and_eq_true] at hw
  exact hw.1

/-- On a dict entry whose location (when present) is itself a dict, the
single-entry renderer either fails with a MisformattedKindleData error or
succeeds; and when it succeeds the entry is not contradictory. -/
theorem single_entry_main {h : Json} (hw : entryWellShaped h = true) :
    (∃ m, single_entry_to_md h = .error (.misformatted m)) ∨
      (∃ s, single_entry_to_md h = .ok s ∧ contradictoryEntry h = false) := by
  obtain ⟨fl, rfl⟩ := isObj_obj (entryWellShaped_isObj hw)
  rcases obj_get_cases fl "location" with hL | ⟨loc, hL⟩
  · exact Or.inl ⟨"Kindle export missing expeced fields.",
      by simp [single_entry_to_md, hL, catchKeyError_key]⟩
  · have hlobj : loc.isObj = true := by
      unfold entryWellShaped at hw
      rw [Bool.and_eq_true] at hw
      have h2 := hw.2
      rw [hL] at h2
      exact h2
    obtain ⟨lfl, rfl⟩ := isObj_obj hlobj
    rcases obj_get_cases lfl "value" with hV | ⟨v, hV⟩
    · exact Or.inl ⟨"Kindle export missing expeced fields.",
        by simp [single_entry_to_md, hL, hV, catchKeyError_key]⟩
    · rcases obj_get_cases lfl "url" with hU | ⟨u, hU⟩
      · exact Or.inl ⟨"Kindle export missing expeced fields.",
          by simp [single_entry_to_md, hL, hV, hU, catchKeyError_key]⟩
      · rcases obj_get_cases fl "isNoteOnly" with hI | ⟨ino, hI⟩
        · exact Or.inl ⟨"Kindle export missing expeced fields.", by
            simp [single_entry_to_md, hL, hV, hU, hI, catchKeyError_key]⟩
        · rcases obj_get_cases fl "text" with hT | ⟨t, hT⟩
          · exact Or.inl ⟨"Kindle export missing expeced fields.", by
              simp [single_entry_to_md, hL, hV, hU, hI, hT, catchKeyError_key]⟩
          · cases hc1 : truthy ino && !(t.isEmptyStr) with
            | true =>
              refine Or.inl ⟨"", ?_⟩
              simp [single_entry_to_md, hL, hV, hU, hI, hT, hc1, catchKeyError_mis]
            | false =>
              cases hc2 : !(truthy ino) && t.isEmptyStr with
              | true =>
                refine Or.inl ⟨"", ?_⟩
                simp [single_entry_to_md, hL, hV, hU, hI, hT, hc1, hc2,
                  catchKeyError_mis]
              | false =>
                rcases obj_get_cases fl "note" with hN | ⟨n, hN⟩
                · exact Or.inl ⟨"Kindle export missing expeced fields.", by
                    simp [single_entry_to_md, hL, hV, hU, hI, hT, hc1, hc2, hN,
                      catchKeyError_key]⟩
                · right
                  have hok : ∃ s, single_entry_to_md (Json.obj fl) = .ok s := by
                    simp [single_entry_to_md, hL, hV, hU, hI, hT, hc1, hc2, hN,
                      catchKeyError_ok]
                  obtain ⟨s, hsok⟩ := hok
                  exact ⟨s, hsok, by simp [contradictoryEntry, hI, hT, hc1, hc2]⟩

/-- Every error of the notes-section comprehension over dict entries is a
KeyError. -/
theorem notesFilter_err {hs : List Json} (hw : ∀ h ∈ hs, Json.isObj h = true)
    {e : PyErr} (he : notesFilter hs = .error e) : ∃ k, e = .keyError k := by
  induction hs with
  | nil => simp [notesFilter] at he
  | cons h rest ih =>
    obtain ⟨fl, rfl⟩ := isObj_obj (hw h (List.mem_cons_self h rest))
    rcases obj_get_cases fl "note" with hg | ⟨n, hg⟩
    · refine ⟨"note", ?_⟩
      simp [notesFilter, hg] at he
      exact he.symm
    · cases hr : notesFilter rest with
      | error e2 =>
        simp [notesFilter, hg, hr] at he
        subst he
        exact ih (fun x hx => hw x (List.mem_cons_of_mem _ hx)) hr
      | ok keep => simp [notesFilter, hg, hr] at he

/-- The notes-section comprehension selects a sublist of the highlights. -/
theorem notesFilter_sub {hs l : List Json} (hnf : notesFilter hs = .ok l) :
    ∀ x ∈ l, x ∈ hs := by
  induction hs generalizing l with
  | nil =>
    simp [notesFilter] at hnf
    subst hnf
    simp
  | cons h rest ih =>
    cases hg : h.get "note" with
    | error e => simp [notesFilter, hg] at hnf
    | ok n =>
      cases hr : notesFilter rest with
      | error e => simp [notesFilter, hg, hr] at hnf
      | ok keep =>
        simp [notesFilter, hg, hr] at hnf
        intro x hx
        cases hnull : n.isNull with
        | true =>
          rw [hnull] at hnf
          simp at hnf
          subst hnf
          exact List.mem_cons_of_mem _ (ih hr x hx)
        | false =>
          rw [hnull] at hnf
          simp at hnf
          subst hnf
          rcases List.mem_cons.mp hx with rfl | hx2
          · exact List.mem_cons_self _ _
          · exact List.mem_cons_of_mem _ (ih hr x hx2)

/-- Every error of the rendering loop over well-shaped entries is a
MisformattedKindleData. -/
theorem renderEntries_err_malformed {hs : List Json}
    (hw : ∀ h ∈ hs, entryWellShaped h = true) {e : PyErr}
    (he : renderEntries hs = .error e) : ∃ m, e = .misformatted m := by
  induction hs with
  | nil => simp [renderEntries] at he
  | cons h rest ih =>
    cases hs1 : single_entry_to_md h with
    | error e2 =>
      simp [renderEntries, hs1] at he
      rcases single_entry_main (hw h (List.mem_cons_self h rest)) with
        ⟨m, hm⟩ | ⟨s, hsok, _⟩
      · rw [hs1] at hm
        exact ⟨m, by rw [← he]; exact (Except.error.inj hm).symm ▸ rfl⟩
      · rw [hs1] at hsok
        exact absurd hsok (by simp)
    | ok md =>
      cases hr : renderEntries rest with
      | error e2 =>
        simp [renderEntries, hs1, hr] at he
        subst he
        exact ih (fun x hx => hw x (List.mem_cons_of_mem _ hx)) hr
      | ok s => simp [renderEntries, hs1, hr] at he

/-- A contradictory entry in a list of well-shaped entries makes the
rendering loop fail with a MisformattedKindleData error. -/
theorem renderEntries_contra {hs : List Json}
    (hw : ∀ h ∈ hs, entryWellShaped h = true)
    (hex : ∃ h ∈ hs, contradictoryEntry h = true) :
    ∃ m, renderEntries hs = .error (.misformatted m) := by
  induction hs with
  | nil =>
    rcases hex with ⟨h, hm, _⟩
    simp at hm
  | cons h rest ih =>
    rcases single_entry_main (hw h (List.mem_cons_self h rest)) with
      ⟨m, hsm⟩ | ⟨s, hsm, hcf⟩
    · exact ⟨m, by simp [renderEntries, hsm]⟩
    · rcases hex with ⟨h2, hmem, hc⟩
      rcases List.mem_cons.mp hmem with rfl | hmem2
      · rw [hcf] at hc
        exact absurd hc (by simp)
      · obtain ⟨m, hr⟩ :=
          ih (fun x hx => hw x (List.mem_cons_of_mem _ hx)) ⟨h2, hmem2, hc⟩
        exact ⟨m, by simp [renderEntries, hsm, hr]⟩

/-- On a document whose highlights key holds a list of well-shaped entries,
the notes section either fails with a MisformattedKindleData error or
succeeds. -/
theorem notesSectionMd_cases {d : Json} {hs : List Json}
    (hhl : d.get "highlights" = .ok (Json.arr hs))
    (hw : ∀ h ∈ hs, entryWellShaped h = true) :
    (∃ m, notesSectionMd d = .error (.misformatted m)) ∨
      (∃ s, notesSectionMd d = .ok s) := by
  cases hnf : notesFilter hs with
  | error e =>
    obtain ⟨k, rfl⟩ :=
      notesFilter_err (fun h hm => entryWellShaped_isObj (hw h hm)) hnf
    exact Or.inl ⟨"Kindle export missing expected fields.",
      by simp [notesSectionMd, hhl, pyIter, hnf, catchKeyError_key]⟩
  | ok hwn =>
    cases hr : renderEntries hwn with
    | error e =>
      obtain ⟨m, rfl⟩ := renderEntries_err_malformed
        (fun x hx => hw x (notesFilter_sub hnf x hx)) hr
      exact Or.inl ⟨m,
        by simp [notesSectionMd, hhl, pyIter, hnf, hr, catchKeyError_ok]⟩
    | ok nm =>
      exact Or.inr ⟨"## Highlights with Notes\n\n" ++ nm ++ "\n\n",
        by simp [notesSectionMd, hhl, pyIter, hnf, hr, catchKeyError_ok]⟩

/-- A well-shaped highlights list containing a contradictory entry makes
kindle_to_md (notes section enabled) fail with a MisformattedKindleData
error, whatever else the document contains. -/
theorem kindle_to_md_contra {d : Json} {hs : List Json}
    (hhl : d.get "highlights" = .ok (Json.arr hs))
    (hw : ∀ h ∈ hs, entryWellShaped h = true)
    (hex : ∃ h ∈ hs, contradictoryEntry h = true) :
    ∃ m, kindle_to_md d true = .error (.misformatted m) := by
  obtain ⟨dfl, rfl⟩ := get_ok_obj hhl
  rcases obj_get_cases dfl "title" with hT | ⟨tv, hT⟩
  · exact ⟨"Kindle export missing title or author fields.",
      by simp [kindle_to_md, hT, catchKeyError_key]⟩
  · rcases obj_get_cases dfl "authors" with hA | ⟨av, hA⟩
    · exact ⟨"Kindle export missing title or author fields.",
        by simp [kindle_to_md, hT, hA, catchKeyError_key]⟩
    · rcases notesSectionMd_cases hhl hw with ⟨m, hns⟩ | ⟨s, hns⟩
      · exact ⟨m, by simp [kindle_to_md, hT, hA, catchKeyError_ok, hns]⟩
      · obtain ⟨m, hre⟩ := renderEntries_contra hw hex
        exact ⟨m, by
          simp [kindle_to_md, hT, hA, catchKeyError_ok, hns, hhl, pyIter, hre]⟩

/-- C2: a run whose parsed input document holds a contradictory entry
(isNoteOnly truthy with non-empty text, or isNoteOnly falsy with empty text)
among its well-shaped highlights fails with a MisformattedKindleData error,
and because rendering fully completes before the writer runs, the file
system is unchanged and no rendered Markdown reaches standard output. -/
theorem contradictory_entry_aborts_run
    (kindle_data : Json) (output_filename : Option String) (fs : FS)
    (hs : List Json)
    (hhl : kindle_data.get "highlights" = .ok (Json.arr hs))
    (hw : ∀ h ∈ hs, entryWellShaped h = true)
    (hex : ∃ h ∈ hs, contradictoryEntry h = true) :
    ∃ m, run_pipeline kindle_data output_filename fs =
      (fs, "", some (PyErr.misformatted m)) := by
  obtain ⟨m, hk⟩ := kindle_to_md_contra hhl hw hex
  exact ⟨m, by simp [run_pipeline, hk]⟩

/-- Witness for C2 at a concrete document holding one contradictory entry. -/
theorem contradictory_entry_aborts_run_witness :
    exContraDoc.get "highlights" = .ok (Json.arr [exContraEntry]) ∧
    (∀ h ∈ [exContraEntry], entryWellShaped h = true) ∧
    (∃ h ∈ [exContraEntry], contradictoryEntry h = true) ∧
    ∃ m, run_pipeline exContraDoc (some "out.md") emptyFS =
      (emptyFS, "", some (PyErr.misformatted m)) :=
  ⟨rfl,
   fun h hm => by rw [List.mem_singleton] at hm; subst hm; rfl,
   ⟨exContraEntry, List.mem_singleton.mpr rfl, rfl⟩,
   contradictory_entry_aborts_run exContraDoc (some "out.md") emptyFS
     [exContraEntry] rfl
     (fun h hm => by rw [List.mem_singleton] at hm; subst hm; rfl)
     ⟨exContraEntry, List.mem_singleton.mpr rfl, rfl⟩⟩

/-! ### Claims about concrete renderings and the writer -/

/-- C1: for the document with title T, authors A and an empty highlights
list, the transformer with the notes section at its default (enabled)
returns exactly the documented string. -/
theorem empty_highlights_full_output :
    kindle_to_md (Json.obj [("title", Json.str "T"), ("authors", Json.str "A"),
      ("highlights", Json.arr [])]) =
    .ok "# T\n\nAuthors: A\n\n## Highlights with Notes\n\n\n\n## All Highlights\n\n" :=
  rfl

/-- C6: the single-entry renderer on the entry with text "Hi", null note,
isNoteOnly false and location value 12 / url http://x returns exactly the
one bullet line, with no indented sub-bullet. -/
theorem text_entry_single_bullet :
    single_entry_to_md exTextNoteEntry = .ok "- Hi ([12](http://x))\n" :=
  rfl

/-- C8: the transformer is a pure function of the parsed document and the
notes-section flag: two applications to the same pair return identical
strings. -/
theorem kindle_to_md_deterministic (d : Json) (f : Bool) :
    kindle_to_md d f = kindle_to_md d f := rfl

/-- C7: the writer with no destination path emits the rendered string plus
one trailing newline to standard output and leaves the file system alone;
with a destination path it prints nothing, stores exactly the string at
that path (creating or truncating), and leaves every other path unchanged. -/
theorem write_output_spec (s : String) (fs : FS) (f g : String)
    (hne : g ≠ f) :
    write_output s none fs = (fs, s ++ "\n") ∧
    (write_output s (some f) fs).2 = "" ∧
    (write_output s (some f) fs).1 f = some s ∧
    (write_output s (some f) fs).1 g = fs g := by
  refine ⟨rfl, rfl, ?_, ?_⟩
  · simp [write_output]
  · simp [write_output, hne]

/-- Witness for C7 at concrete strings and the empty file system. -/
theorem write_output_spec_witness :
    ("b.md" : String) ≠ "a.md" ∧
    (write_output "x" none emptyFS = (emptyFS, "x" ++ "\n") ∧
     (write_output "x" (some "a.md") emptyFS).2 = "" ∧
     (write_output "x" (some "a.md") emptyFS).1 "a.md" = some "x" ∧
     (write_output "x" (some "a.md") emptyFS).1 "b.md" = emptyFS "b.md") :=
  ⟨by decide, write_output_spec "x" emptyFS "a.md" "b.md" (by decide)⟩

/-! ### Claims about missing keys -/

/-- C5: a document (a dict) with title and authors present but no
highlights key makes the transformer, at its default notes-section flag,
fail with the MisformattedKindleData error raised around the notes-section
comprehension. -/
theorem missing_highlights_malformed (dfl : List (String × Json))
    (tv av : Json)
    (ht : lookupField dfl "title" = some tv)
    (ha : lookupField dfl "authors" = some av)
    (hh : lookupField dfl "highlights" = none) :
    kindle_to_md (Json.obj dfl) =
      .error (.misformatted "Kindle export missing expected fields.") := by
  have hT : (Json.obj dfl).get "title" = .ok tv := by simp [Json.get, ht]
  have hA : (Json.obj dfl).get "authors" = .ok av := by simp [Json.get, ha]
  have hH : (Json.obj dfl).get "highlights" = .error (.keyError "highlights") := by
    simp [Json.get, hh]
  simp [kindle_to_md, hT, hA, hH, catchKeyError_ok, notesSectionMd,
    catchKeyError_key]

/-- Witness for C5 at a concrete two-key document. -/
theorem missing_highlights_malformed_witness :
    lookupField [("title", Json.str "T"), ("authors", Json.str "A")] "title" =
      some (Json.str "T") ∧
    lookupField [("title", Json.str "T"), ("authors", Json.str "A")] "authors" =
      some (Json.str "A") ∧
    lookupField [("title", Json.str "T"), ("authors", Json.str "A")] "highlights" =
      none ∧
    kindle_to_md (Json.obj [("title", Json.str "T"), ("authors", Json.str "A")]) =
      .error (.misformatted "Kindle export missing expected fields.") :=
  ⟨rfl, rfl, rfl,
   missing_highlights_malformed [("title", Json.str "T"), ("authors", Json.str "A")]
     (Json.str "T") (Json.str "A") rfl rfl rfl⟩

/-- Counterexample to C9 as stated: the empty document also lacks the
highlights key, yet with the notes-section flag false the transformer
raises the MisformattedKindleData type (for the missing title), which is
among the error types caught and converted to help text at the top level. -/
theorem missing_highlights_keyerror_cex :
    kindle_to_md (Json.obj []) false =
      .error (.misformatted "Kindle export missing title or author fields.") ∧
    caught_by_main
      (.misformatted "Kindle export missing title or author fields.") = true :=
  ⟨rfl, rfl⟩

/-- C9 amended: a document that has title and authors but lacks the
highlights key makes the transformer with the notes-section flag false
raise a plain KeyError, an error type main does not catch. -/
theorem missing_highlights_keyerror_when_notes_off (dfl : List (String × Json))
    (tv av : Json)
    (ht : lookupField dfl "title" = some tv)
    (ha : lookupField dfl "authors" = some av)
    (hh : lookupField dfl "highlights" = none) :
    kindle_to_md (Json.obj dfl) false = .error (.keyError "highlights") ∧
    caught_by_main (.keyError "highlights") = false := by
  have hT : (Json.obj dfl).get "title" = .ok tv := by simp [Json.get, ht]
  have hA : (Json.obj dfl).get "authors" = .ok av := by simp [Json.get, ha]
  have hH : (Json.obj dfl).get "highlights" = .error (.keyError "highlights") := by
    simp [Json.get, hh]
  exact ⟨by simp [kindle_to_md, hT, hA, hH, catchKeyError_ok], rfl⟩

/-- Witness for the amended C9 at a concrete two-key document. -/
theorem missing_highlights_keyerror_when_notes_off_witness :
    lookupField [("title", Json.str "T"), ("authors", Json.str "A")] "title" =
      some (Json.str "T") ∧
    lookupField [("title", Json.str "T"), ("authors", Json.str "A")] "authors" =
      some (Json.str "A") ∧
    lookupField [("title", Json.str "T"), ("authors", Json.str "A")] "highlights" =
      none ∧
    (kindle_to_md (Json.obj [("title", Json.str "T"), ("authors", Json.str "A")]) false =
       .error (.keyError "highlights") ∧
     caught_by_main (.keyError "highlights") = false) :=
  ⟨rfl, rfl, rfl,
   missing_highlights_keyerror_when_notes_off
     [("title", Json.str "T"), ("authors", Json.str "A")]
     (Json.str "T") (Json.str "A") rfl rfl rfl⟩

/-! ### Claims about the contradictory-record error -/

/-- C10: a contradictory entry whose location fields resolve raises the
MisformattedKindleData with an empty message, so the explanatory line main
passes to show_help is the empty string (show_help then prints just a blank
line before the help text), unlike the missing-key conversion whose message
is non-empty. -/
theorem contradictory_entry_empty_message (h loc v u ino t : Json)
    (hL : h.get "location" = .ok loc) (hV : loc.get "value" = .ok v)
    (hU : loc.get "url" = .ok u)
    (hI : h.get "isNoteOnly" = .ok ino) (hT : h.get "text" = .ok t)
    (hc : ((truthy ino && !(t.isEmptyStr)) ||
           (!(truthy ino) && t.isEmptyStr)) = true) :
    single_entry_to_md h = .error (.misformatted "") ∧
    errMessage (.misformatted "") = "" ∧
    show_help (some (errMessage (.misformatted ""))) =
      "\n" ++ "\n" ++ helpText ++ "\n" ∧
    errMessage (.misformatted "Kindle export missing expeced fields.") ≠ "" := by
  refine ⟨?_, rfl, rfl, by decide⟩
  cases hc1 : (truthy ino && !(t.isEmptyStr)) with
  | true => simp [single_entry_to_md, hL, hV, hU, hI, hT, hc1, catchKeyError_mis]
  | false =>
    rw [hc1] at hc
    simp only [Bool.false_or] at hc
    simp [single_entry_to_md, hL, hV, hU, hI, hT, hc1, hc, catchKeyError_mis]

/-- Witness for C10 at a concrete contradictory entry (isNoteOnly true,
text "x"). -/
theorem contradictory_entry_empty_message_witness :
    (Json.obj [("isNoteOnly", Json.bool true), ("text", Json.str "x"),
       ("location", Json.obj [("value", Json.str "5"), ("url", Json.str "y")])]).get
        "location" = .ok (Json.obj [("value", Json.str "5"), ("url", Json.str "y")]) ∧
    ((truthy (Json.bool true) && !((Json.str "x").isEmptyStr)) ||
      (!(truthy (Json.bool true)) && (Json.str "x").isEmptyStr)) = true ∧
    single_entry_to_md (Json.obj [("isNoteOnly", Json.bool true),
      ("text", Json.str "x"),
      ("location", Json.obj [("value", Json.str "5"), ("url", Json.str "y")])]) =
      .error (.misformatted "") :=
  ⟨rfl, rfl,
   (contradictory_entry_empty_message
     (Json.obj [("isNoteOnly", Json.bool true), ("text", Json.str "x"),
       ("location", Json.obj [("value", Json.str "5"), ("url", Json.str "y")])])
     (Json.obj [("value", Json.str "5"), ("url", Json.str "y")])
     (Json.str "5") (Json.str "y") (Json.bool true) (Json.str "x")
     rfl rfl rfl rfl rfl rfl).1⟩

/-- Counterexample to C3 as stated: an entry whose location fields are
present and whose isNoteOnly/text combination is not contradictory
(isNoteOnly false, text "Hi"), but whose note key is absent.  The
single-entry renderer nonetheless fails with a malformed-data error, from
the KeyError raised by the note access. -/
theorem single_entry_malformed_iff_cex :
    exNoNoteEntry.get "location" = .ok exLoc12 ∧
    exLoc12.get "value" = .ok (Json.str "12") ∧
    exLoc12.get "url" = .ok (Json.str "http://x") ∧
    exNoNoteEntry.get "isNoteOnly" = .ok (Json.bool false) ∧
    exNoNoteEntry.get "text" = .ok (Json.str "Hi") ∧
    contradictoryEntry exNoNoteEntry = false ∧
    single_entry_to_md exNoNoteEntry =
      .error (.misformatted "Kindle export missing expeced fields.") :=
  ⟨rfl, rfl, rfl, rfl, rfl, rfl, rfl⟩

/-- C3 amended: for an entry whose location fields are present and whose
isNoteOnly (a boolean), text and note keys are all present, the
single-entry renderer fails with a malformed-data error if and only if the
entry is contradictory, and on every non-contradictory such entry it
returns a string without error. -/
theorem single_entry_malformed_iff (h loc v u t n : Json) (b : Bool)
    (hL : h.get "location" = .ok loc) (hV : loc.get "value" = .ok v)
    (hU : loc.get "url" = .ok u)
    (hI : h.get "isNoteOnly" = .ok (Json.bool b)) (hT : h.get "text" = .ok t)
    (hN : h.get "note" = .ok n) :
    ((∃ m, single_entry_to_md h = .error (.misformatted m)) ↔
      ((b && !(t.isEmptyStr)) || (!b && t.isEmptyStr)) = true) ∧
    (((b && !(t.isEmptyStr)) || (!b && t.isEmptyStr)) = false →
      ∃ s, single_entry_to_md h = .ok s) := by
  cases hc1 : (b && !(t.isEmptyStr)) with
  | true =>
    have hres : single_entry_to_md h = .error (.misformatted "") := by
      simp [single_entry_to_md, hL, hV, hU, hI, hT, truthy, hc1,
        catchKeyError_mis]
    constructor
    · constructor
      · intro _
        simp [hc1]
      · intro _
        exact ⟨"", hres⟩
    · intro hfalse
      simp at hfalse
  | false =>
    cases hc2 : (!b && t.isEmptyStr) with
    | true =>
      have hres : single_entry_to_md h = .error (.misformatted "") := by
        simp [single_entry_to_md, hL, hV, hU, hI, hT, truthy, hc1, hc2,
          catchKeyError_mis]
      constructor
      · constructor
        · intro _
          simp [hc1, hc2]
        · intro _
          exact ⟨"", hres⟩
      · intro hfalse
        simp at hfalse
    | false =>
      have hres : ∃ s, single_entry_to_md h = .ok s := by
        simp [single_entry_to_md, hL, hV, hU, hI, hT, hN, truthy, hc1, hc2,
          catchKeyError_ok]
      constructor
      · constructor
        · rintro ⟨m, hm⟩
          obtain ⟨s, hs2⟩ := hres
          rw [hm] at hs2
          exact absurd hs2 (by simp)
        · intro htrue
          simp at htrue
      · intro _
        exact hres

/-- Witness for the amended C3 at a concrete entry with all fields present
(text "Hi", null note, isNoteOnly false). -/
theorem single_entry_malformed_iff_witness :
    (exTextNoteEntry.get "location" = .ok exLoc12 ∧
     exLoc12.get "value" = .ok (Json.str "12") ∧
     exLoc12.get "url" = .ok (Json.str "http://x") ∧
     exTextNoteEntry.get "isNoteOnly" = .ok (Json.bool false) ∧
     exTextNoteEntry.get "text" = .ok (Json.str "Hi") ∧
     exTextNoteEntry.get "note" = .ok Json.null) ∧
    (((∃ m, single_entry_to_md exTextNoteEntry = .error (.misformatted m)) ↔
       ((false && !((Json.str "Hi").isEmptyStr)) ||
        (!false && (Json.str "Hi").isEmptyStr)) = true) ∧
     (((false && !((Json.str "Hi").isEmptyStr)) ||
       (!false && (Json.str "Hi").isEmptyStr)) = false →
       ∃ s, single_entry_to_md exTextNoteEntry = .ok s)) :=
  ⟨⟨rfl, rfl, rfl, rfl, rfl, rfl⟩,
   single_entry_malformed_iff exTextNoteEntry exLoc12 (Json.str "12")
     (Json.str "http://x") (Json.str "Hi") Json.null false
     rfl rfl rfl rfl rfl rfl⟩

/-! ### Invisible-entry lemmas for C4 -/

theorem str_empty_append (s : String) : "" ++ s = s := by
  cases s
  rfl

/-- Inserting an entry that renders to the empty string anywhere in the
list leaves the rendering loop's result unchanged. -/
theorem renderEntries_insert {h : Json} (hok : single_entry_to_md h = .ok "")
    (a b : List Json) :
    renderEntries (a ++ h :: b) = renderEntries (a ++ b) := by
  induction a with
  | nil =>
    cases hr : renderEntries b with
    | error e => simp [renderEntries, hok, hr]
    | ok s => simp [renderEntries, hok, hr, str_empty_append]
  | cons x xs ih =>
    cases hx : single_entry_to_md x with
    | error e => simp [renderEntries, hx]
    | ok md => simp [renderEntries, hx, ih]

/-- One step of the notes-section comprehension when the head's note access
succeeds. -/
theorem notesFilter_cons_ok {h n : Json} (hg : h.get "note" = .ok n)
    (b : List Json) :
    notesFilter (h :: b) =
      (notesFilter b).map (fun lb => if n.isNull then lb else h :: lb) := by
  cases hr : notesFilter b with
  | error e => simp [notesFilter, hg, hr, Except.map]
  | ok keep => simp [notesFilter, hg, hr, Except.map]

/-- The notes-section comprehension distributes over list append. -/
theorem notesFilter_append (a b : List Json) :
    notesFilter (a ++ b) =
      (notesFilter a).bind (fun la =>
        (notesFilter b).map (fun lb => la ++ lb)) := by
  induction a with
  | nil =>
    cases hb : notesFilter b with
    | error e => simp [notesFilter, hb, Except.bind, Except.map]
    | ok lb => simp [notesFilter, hb, Except.bind, Except.map]
  | cons x xs ih =>
    cases hx : x.get "note" with
    | error e => simp [notesFilter, hx, Except.bind]
    | ok n =>
      cases hxs : notesFilter xs with
      | error e => simp [notesFilter, hx, hxs, ih, Except.bind, Except.map]
      | ok lxs =>
        cases hb : notesFilter b with
        | error e =>
          simp [notesFilter, hx, hxs, ih, hb, Except.bind, Except.map]
        | ok lb =>
          cases hnull : n.isNull with
          | true =>
            simp [notesFilter, hx, hxs, ih, hb, hnull, Except.bind, Except.map]
          | false =>
            simp [notesFilter, hx, hxs, ih, hb, hnull, Except.bind, Except.map]

/-- notesSectionMd on a document of the standard shape reduces to the
comprehension plus rendering over the highlights list. -/
theorem notesSectionMd_mkDoc (tj aj : Json) (hs : List Json) :
    notesSectionMd (mkDoc tj aj hs) =
      match catchKeyError "Kindle export missing expected fields."
          (notesFilter hs) with
      | .error e => .error e
      | .ok hwn =>
        match renderEntries hwn with
        | .error e => .error e
        | .ok nm => .ok ("## Highlights with Notes\n\n" ++ nm ++ "\n\n") := by
  unfold notesSectionMd mkDoc
  simp [Json.get, lookupField, pyIter]

/-- kindle_to_md (default flag) on a document of the standard shape reduces
to header, notes section and All Highlights rendering. -/
theorem kindle_to_md_mkDoc (tj aj : Json) (hs : List Json) :
    kindle_to_md (mkDoc tj aj hs) =
      match notesSectionMd (mkDoc tj aj hs) with
      | .error e => .error e
      | .ok notesPart =>
        match renderEntries hs with
        | .error e => .error e
        | .ok am =>
          .ok ("# " ++ pyStr tj ++ "\n\n" ++ "Authors: " ++ pyStr aj ++ "\n\n"
            ++ notesPart ++ "## All Highlights\n\n" ++ am) := by
  unfold kindle_to_md mkDoc
  simp [Json.get, lookupField, pyIter, catchKeyError_ok]

/-- Inserting an entry that renders to the empty string and whose note is
null or empty leaves the notes section unchanged: a null note is filtered
out, an empty-string note is kept but contributes nothing. -/
theorem notesSectionMd_insert (tj aj : Json) {h n : Json}
    (hok : single_entry_to_md h = .ok "") (hN : h.get "note" = .ok n)
    (hn : n = Json.null ∨ n = Json.str "") (pre post : List Json) :
    notesSectionMd (mkDoc tj aj (pre ++ h :: post)) =
      notesSectionMd (mkDoc tj aj (pre ++ post)) := by
  rw [notesSectionMd_mkDoc, notesSectionMd_mkDoc, notesFilter_append,
    notesFilter_append, notesFilter_cons_ok hN]
  cases hpre : notesFilter pre with
  | error e => rfl
  | ok la =>
    cases hpost : notesFilter post with
    | error e => rfl
    | ok lb =>
      rcases hn with rfl | rfl
      · simp [Json.isNull, Except.bind, Except.map]
      · simp only [Json.isNull, Except.bind, Except.map, if_neg]
        simp [Except.bind, Except.map, catchKeyError_ok,
          renderEntries_insert hok la lb]

/-- Full insertion invariance: an entry that renders to the empty string
and has a null or empty note leaves the transformer's output unchanged. -/
theorem kindle_to_md_insert (tj aj : Json) {h n : Json}
    (hok : single_entry_to_md h = .ok "") (hN : h.get "note" = .ok n)
    (hn : n = Json.null ∨ n = Json.str "") (pre post : List Json) :
    kindle_to_md (mkDoc tj aj (pre ++ h :: post)) =
      kindle_to_md (mkDoc tj aj (pre ++ post)) := by
  rw [kindle_to_md_mkDoc, kindle_to_md_mkDoc,
    notesSectionMd_insert tj aj hok hN hn pre post,
    renderEntries_insert hok pre post]

/-- Counterexample to C4 as stated: a note-only entry (isNoteOnly true,
empty text, valid location fields) whose note key is absent makes the
transformer fail with a malformed-data error instead of succeeding, because
the notes-section comprehension's note access raises KeyError. -/
theorem noteonly_absent_note_fails_cex :
    exAbsentNoteEntry.get "isNoteOnly" = .ok (Json.bool true) ∧
    exAbsentNoteEntry.get "text" = .ok (Json.str "") ∧
    exAbsentNoteEntry.get "location" =
      .ok (Json.obj [("value", Json.str "1"), ("url", Json.str "u")]) ∧
    exAbsentNoteEntry.get "note" = .error (.keyError "note") ∧
    kindle_to_md exAbsentNoteDoc =
      .error (.misformatted "Kindle export missing expected fields.") :=
  ⟨rfl, rfl, rfl, rfl, rfl⟩

/-- C4 amended: an entry with isNoteOnly true, empty text, valid location
fields and a note that is present but empty or null renders to the empty
string, and inserting it anywhere in the highlights of a document that the
transformer renders successfully leaves the output byte-identical — the
entry contributes no line to either section. -/
theorem noteonly_empty_note_invisible (tj aj : Json) (pre post : List Json)
    (h loc v u n : Json)
    (hL : h.get "location" = .ok loc) (hV : loc.get "value" = .ok v)
    (hU : loc.get "url" = .ok u)
    (hI : h.get "isNoteOnly" = .ok (Json.bool true))
    (hT : h.get "text" = .ok (Json.str ""))
    (hN : h.get "note" = .ok n) (hn : n = Json.null ∨ n = Json.str "")
    (s : String)
    (hOk : kindle_to_md (mkDoc tj aj (pre ++ post)) = .ok s) :
    single_entry_to_md h = .ok "" ∧
    kindle_to_md (mkDoc tj aj (pre ++ h :: post)) = .ok s := by
  have hok : single_entry_to_md h = .ok "" := by
    rcases hn with rfl | rfl
    · simp [single_entry_to_md, hL, hV, hU, hI, hT, hN, truthy,
        Json.isEmptyStr, catchKeyError_ok, str_empty_append]
    · simp [single_entry_to_md, hL, hV, hU, hI, hT, hN, truthy,
        Json.isEmptyStr, catchKeyError_ok, str_empty_append]
  exact ⟨hok, by rw [kindle_to_md_insert tj aj hok hN hn pre post, hOk]⟩

/-- Witness for the amended C4: inserting the null-note note-only entry
into the empty-highlights document leaves the output unchanged. -/
theorem noteonly_empty_note_invisible_witness :
    exEmptyNoteEntry.get "isNoteOnly" = .ok (Json.bool true) ∧
    exEmptyNoteEntry.get "text" = .ok (Json.str "") ∧
    exEmptyNoteEntry.get "note" = .ok Json.null ∧
    kindle_to_md (mkDoc (Json.str "T") (Json.str "A") ([] ++ [])) =
      .ok "# T\n\nAuthors: A\n\n## Highlights with Notes\n\n\n\n## All Highlights\n\n" ∧
    (single_entry_to_md exEmptyNoteEntry = .ok "" ∧
     kindle_to_md (mkDoc (Json.str "T") (Json.str "A") ([] ++ exEmptyNoteEntry :: [])) =
       .ok "# T\n\nAuthors: A\n\n## Highlights with Notes\n\n\n\n## All Highlights\n\n") :=
  ⟨rfl, rfl, rfl, rfl,
   noteonly_empty_note_invisible (Json.str "T") (Json.str "A") [] []
     exEmptyNoteEntry
     (Json.obj [("value", Json.str "1"), ("url", Json.str "u")])
     (Json.str "1") (Json.str "u") Json.null
     rfl rfl rfl rfl rfl rfl (Or.inl rfl)
     "# T\n\nAuthors: A\n\n## Highlights with Notes\n\n\n\n## All Highlights\n\n"
     rfl⟩
